import Mathlib

/-!
Verification of the emuwasm WebAssembly emulator/debugger against its
specification.  The Python source (`src/__main__.py`) provides the section
tables and the operand `Stack`; the decoder/validator/interpreter described by
the specification are absent from the source tree, so their semantics are
modelled directly from the specification where a claim needs them.

Conventions of the embedding:
  * Python lists become Lean `List`s; `list.append` appends at the end,
    `list.pop()` removes the last element, `list[-1]` reads the last element.
  * Raising an exception becomes returning `Except.error`; a method that
    cannot raise is a total function.
  * i32 values are bit patterns, i.e. natural numbers below 2^32; the signed
    reading is recovered by `toSigned32`.
-/

/-- The eleven section labels, in the order the decoder consumes them
(`sections` in `src/__main__.py`, lines 21-33). -/
def sections : List String :=
  [ "type"
  , "import"
  , "function"
  , "table"
  , "memory"
  , "global"
  , "export"
  , "start"
  , "element"
  , "code"
  , "data" ]

/-- The sections that must be present for a syntactically complete module
(`required_sections` in `src/__main__.py`, lines 35-39). -/
def required_sections : List String :=
  [ "type"
  , "function"
  , "code" ]

/-- Modelled from the spec: the syntactic-completeness check itself is not in
the source (only the `required_sections` list is); the spec says the module is
syntactically complete exactly when every required section is present. -/
def syntactically_complete (present : List String) : Bool :=
  required_sections.all (fun s => decide (s ∈ present))

/-- Error raised on access to an empty stack (`EmptyException` in the
source); it carries the message string passed to the constructor. -/
inductive StackError where
  | EmptyException : String → StackError
deriving DecidableEq

/-- The message the `Stack` methods raise with. -/
def emptyMsg : String := "Stack is empty"

/-- The LIFO operand stack (`Stack` in the source): a wrapper around a
Python list, the end of the list being the top of the stack. -/
structure Stack (α : Type) where
  _data : List α
deriving DecidableEq

/-- The class attribute `Stack.debug`, which is `False` in the source.  The
constructor consults this attribute (via `self.debug`), not its argument. -/
def Stack.debug : Bool := false

/-- `Stack.__init__(self, debug=False)`: creates an empty stack; logs a line
when the class attribute `debug` is set (the argument `dbg` is never read).
The second component is the log output the call emits. -/
def Stack.init (α : Type) (_dbg : Bool) : Stack α × List String :=
  (⟨[]⟩, if Stack.debug then ["Stack is initialized"] else [])

/-- `Stack.__len__`: the number of elements in the stack. -/
def Stack.len {α : Type} (s : Stack α) : Nat :=
  s._data.length

/-- `Stack.is_empty`: `len(self._data) == 0`. -/
def Stack.is_empty {α : Type} (s : Stack α) : Bool :=
  s._data.length == 0

/-- `Stack.push`: `self._data.append(e)` — appends at the end of the list. -/
def Stack.push {α : Type} (s : Stack α) (e : α) : Stack α :=
  ⟨s._data ++ [e]⟩

/-- A stack whose `is_empty` test fails has a non-nil data list. -/
theorem Stack.ne_nil_of_not_is_empty {α : Type} (s : Stack α)
    (h : ¬ s.is_empty = true) : s._data ≠ [] := by
  intro e
  exact h (by simp [Stack.is_empty, e])

/-- `Stack.top`: raise `EmptyException` if the stack is empty, else return
`self._data[-1]` (the last element); the stack itself is not modified. -/
def Stack.top {α : Type} (s : Stack α) : Except StackError α :=
  if h : s.is_empty then
    Except.error (StackError.EmptyException emptyMsg)
  else
    Except.ok (s._data.getLast (s.ne_nil_of_not_is_empty h))

/-- `Stack.pop`: raise `EmptyException` if the stack is empty, else
`self._data.pop()` — remove and return the last element.  The returned pair is
(popped element, remaining stack). -/
def Stack.pop {α : Type} (s : Stack α) : Except StackError (α × Stack α) :=
  if h : s.is_empty then
    Except.error (StackError.EmptyException emptyMsg)
  else
    Except.ok (s._data.getLast (s.ne_nil_of_not_is_empty h), ⟨s._data.dropLast⟩)

/-- Unfolding lemma: `pop` on an empty stack raises. -/
theorem Stack.pop_empty {α : Type} (s : Stack α) (h : s.is_empty = true) :
    s.pop = Except.error (StackError.EmptyException emptyMsg) := by
  unfold Stack.pop
  rw [dif_pos h]

/-- Unfolding lemma: `pop` on a non-empty stack removes and returns the last
element of the data list. -/
theorem Stack.pop_nonempty {α : Type} (s : Stack α) (h : ¬ s.is_empty = true) :
    s.pop = Except.ok
      (s._data.getLast (s.ne_nil_of_not_is_empty h), ⟨s._data.dropLast⟩) := by
  unfold Stack.pop
  rw [dif_neg h]

/-- Unfolding lemma: `top` on an empty stack raises. -/
theorem Stack.top_empty {α : Type} (s : Stack α) (h : s.is_empty = true) :
    s.top = Except.error (StackError.EmptyException emptyMsg) := by
  unfold Stack.top
  rw [dif_pos h]

/-- Unfolding lemma: `top` on a non-empty stack returns the last element. -/
theorem Stack.top_nonempty {α : Type} (s : Stack α) (h : ¬ s.is_empty = true) :
    s.top = Except.ok (s._data.getLast (s.ne_nil_of_not_is_empty h)) := by
  unfold Stack.top
  rw [dif_neg h]

/-- Runtime trap kinds from the specification's error taxonomy (a `Trap`
aborts only the current invocation; it is a value here, not an exception). -/
inductive TrapKind where
  | IntegerDivideByZero
  | IntegerOverflow
  | MemoryOutOfBounds
  | Unreachable
deriving DecidableEq

/-- The signed reading of an i32 bit pattern. -/
def toSigned32 (n : Nat) : Int :=
  if n < 2 ^ 31 then (n : Int) else (n : Int) - 2 ^ 32

/-- The i32 bit pattern of an integer, i.e. its value modulo 2^32. -/
def toUnsigned32 (i : Int) : Nat :=
  (i % (2 ^ 32 : Int)).toNat

/-- Modelled from the spec: the interpreter is absent from the source; the
spec says `i32.div_s` traps with `IntegerDivideByZero` on a zero divisor, with
`IntegerOverflow` on `INT_MIN / -1`, and otherwise computes the truncating
signed quotient, wrapped to 32 bits.  Operands are i32 bit patterns. -/
def i32_div_s (a b : Nat) : Except TrapKind Nat :=
  if toSigned32 b = 0 then
    Except.error TrapKind.IntegerDivideByZero
  else if toSigned32 a = -(2 ^ 31) ∧ toSigned32 b = -1 then
    Except.error TrapKind.IntegerOverflow
  else
    Except.ok (toUnsigned32 (Int.tdiv (toSigned32 a) (toSigned32 b)))

/-- Modelled from the spec: the interpreter is absent from the source; the
spec says `i32.add` wraps modulo 2^32 and never traps.  Operands are i32 bit
patterns; the result is returned through the same trap-or-value type as every
other opcode. -/
def i32_add (a b : Nat) : Except TrapKind Nat :=
  Except.ok ((a + b) % 2 ^ 32)

/-- A linear memory, page-granular: current size in pages and the declared
maximum from its limits, if any. -/
structure Mem where
  size : Nat
  max : Option Nat
deriving DecidableEq

/-- Modelled from the spec: the interpreter is absent from the source; the
spec says `memory.grow` extends by `n` pages and returns the previous size in
pages when the result stays within the declared maximum, and otherwise returns
`-1` (not a trap) leaving the memory unchanged.  With no declared maximum this
model imposes no implementation ceiling. -/
def memory_grow (m : Mem) (n : Nat) : Int × Mem :=
  match m.max with
  | some mx =>
      if m.size + n ≤ mx then
        ((m.size : Int), ⟨m.size + n, m.max⟩)
      else
        (-1, m)
  | none => ((m.size : Int), ⟨m.size + n, none⟩)

example : i32_div_s 1 0 = Except.error TrapKind.IntegerDivideByZero := rfl
example : i32_div_s 2147483648 4294967295 = Except.error TrapKind.IntegerOverflow := rfl
example : i32_div_s 7 2 = Except.ok 3 := rfl
example : i32_div_s 4294967289 2 = Except.ok 4294967293 := rfl
example : i32_add 2147483647 1 = Except.ok 2147483648 := rfl
example : memory_grow ⟨1, some 2⟩ 5 = (-1, ⟨1, some 2⟩) := by decide
example : memory_grow ⟨0, some 2⟩ 1 = (0, ⟨1, some 2⟩) := by decide

example : (Stack.mk [1, 2]).pop = Except.ok (2, (⟨[1]⟩ : Stack Nat)) := rfl
example : (Stack.mk ([] : List Nat)).pop
    = Except.error (StackError.EmptyException emptyMsg) := rfl
example : (Stack.mk [5, 7]).top = Except.ok 7 := rfl
example : syntactically_complete ["code", "type", "function", "table"] = true := by decide
example : syntactically_complete ["type", "code"] = false := by decide

/-- C1: `pop` raises `EmptyException` exactly when the stack is empty; on a
non-empty stack it returns the top element and removes exactly that element
(pushing the returned element back onto the remaining stack restores the
original).  Emptiness is reported through the distinct `StackError` error
type, disjoint from the runtime `TrapKind` taxonomy, so it is a contract
violation, not a recoverable trap. -/
theorem stack_pop_contract {α : Type} (s : Stack α) :
    ((∃ m, s.pop = Except.error (StackError.EmptyException m)) ↔
      s.is_empty = true) ∧
    (∀ (e : α) (t : Stack α), s.pop = Except.ok (e, t) →
      s.top = Except.ok e ∧ t.push e = s) := by
  by_cases h : s.is_empty = true
  · refine ⟨⟨fun _ => h, fun _ => ⟨emptyMsg, s.pop_empty h⟩⟩, ?_⟩
    intro e t hcontra
    rw [s.pop_empty h] at hcontra
    cases hcontra
  · refine ⟨⟨?_, fun hc => absurd hc h⟩, ?_⟩
    · rintro ⟨m, hm⟩
      rw [s.pop_nonempty h] at hm
      cases hm
    · intro e t het
      rw [s.pop_nonempty h] at het
      injection het with het
      have he : s._data.getLast (s.ne_nil_of_not_is_empty h) = e :=
        congrArg Prod.fst het
      have ht : (⟨s._data.dropLast⟩ : Stack α) = t :=
        congrArg Prod.snd het
      subst ht
      refine ⟨by rw [s.top_nonempty h, he], ?_⟩
      show (⟨s._data.dropLast ++ [e]⟩ : Stack α) = s
      rw [← he, List.dropLast_append_getLast (s.ne_nil_of_not_is_empty h)]

/-- C1 witness: `pop` on the two-element stack `[1, 2]` returns `2`, the top
of the stack, and pushing it back restores the stack. -/
theorem stack_pop_contract_w :
    (Stack.mk [1, 2] : Stack Nat).top = Except.ok 2 ∧
    (Stack.mk [1] : Stack Nat).push 2 = Stack.mk [1, 2] :=
  (stack_pop_contract (Stack.mk [1, 2])).2 2 (Stack.mk [1]) rfl

/-- C2: the stack is LIFO — pushing `e` and then popping returns `e` and
leaves the stack in exactly its previous state. -/
theorem stack_push_pop_identity {α : Type} (s : Stack α) (e : α) :
    (s.push e).pop = Except.ok (e, s) := by
  have hne : ¬ (s.push e).is_empty = true := by
    simp [Stack.push, Stack.is_empty]
  rw [Stack.pop_nonempty _ hne]
  have h1 : (s.push e)._data.getLast ((s.push e).ne_nil_of_not_is_empty hne) = e := by
    simp [Stack.push, List.getLast_append]
  have h2 : (s.push e)._data.dropLast = s._data := by
    simp [Stack.push]
  rw [h1, h2]

/-- C3 counterexample: the decoder's section list is not the claimed ten
sections — it contains an eleventh kind, `data`, and has length 11. -/
theorem sections_not_the_ten :
    sections ≠
      ["type", "import", "function", "table", "memory", "global", "export",
       "start", "element", "code"] ∧
    "data" ∈ sections ∧ sections.length = 11 := by
  refine ⟨by decide, by decide, by decide⟩

/-- C3 amended: the decoder's section order is the ten claimed sections in
the claimed order, followed by one further section kind, `data`. -/
theorem sections_order :
    sections =
      ["type", "import", "function", "table", "memory", "global", "export",
       "start", "element", "code"] ++ ["data"] := by
  decide

/-- C4: the required sections are exactly type, function and code, and the
module is syntactically complete if and only if all three are present. -/
theorem required_sections_spec :
    required_sections = ["type", "function", "code"] ∧
    ∀ present : List String,
      syntactically_complete present = true ↔
        ("type" ∈ present ∧ "function" ∈ present ∧ "code" ∈ present) := by
  refine ⟨rfl, fun present => ?_⟩
  simp [syntactically_complete, required_sections]

/-- C5: `i32.div_s` traps with `IntegerDivideByZero` on `1 / 0`, traps with
`IntegerOverflow` on `INT_MIN / -1` (bit patterns `0x80000000` and
`0xffffffff`), and these are the only trapping conditions: a trap occurs if
and only if the divisor reads as 0, or the operands read as `INT_MIN` and
`-1`.  A trap is a returned error value, aborting only this computation. -/
theorem i32_div_s_trap_spec :
    i32_div_s 1 0 = Except.error TrapKind.IntegerDivideByZero ∧
    i32_div_s 2147483648 4294967295 = Except.error TrapKind.IntegerOverflow ∧
    ∀ a b : Nat,
      (∃ t, i32_div_s a b = Except.error t) ↔
        (toSigned32 b = 0 ∨
          (toSigned32 a = -(2 ^ 31) ∧ toSigned32 b = -1)) := by
  refine ⟨rfl, rfl, fun a b => ?_⟩
  unfold i32_div_s
  split_ifs with h1 h2
  · simp [h1]
  · simp [h1, h2]
  · constructor
    · rintro ⟨t, ht⟩
      cases ht
    · intro hor
      rcases hor with hb | hab
      · exact absurd hb h1
      · exact absurd hab h2

/-- C6: `i32.add` never traps and wraps modulo 2^32: on `0x7fffffff` and `1`
it yields `0x80000000`, and for all operands it returns a value below 2^32
congruent to the mathematical sum modulo 2^32. -/
theorem i32_add_wrap_spec :
    i32_add 2147483647 1 = Except.ok 2147483648 ∧
    ∀ a b : Nat, ∃ r : Nat,
      i32_add a b = Except.ok r ∧ r < 2 ^ 32 ∧ r = (a + b) % 2 ^ 32 ∧
      Int.ModEq (2 ^ 32) ((a : Int) + (b : Int)) (r : Int) := by
  refine ⟨rfl, fun a b =>
    ⟨(a + b) % 2 ^ 32, rfl, Nat.mod_lt _ (by norm_num), rfl, ?_⟩⟩
  unfold Int.ModEq
  push_cast
  rw [Int.emod_emod_of_dvd _ dvd_rfl]

/-- C7: on a memory with a declared maximum, `memory.grow` by `n` pages
returns `-1` and leaves the memory unchanged when the grown size would exceed
the maximum, and otherwise extends the memory by `n` pages and returns the
previous size in pages. -/
theorem memory_grow_spec (m : Mem) (n mx : Nat) (h : m.max = some mx) :
    (mx < m.size + n → memory_grow m n = (-1, m)) ∧
    (m.size + n ≤ mx →
      memory_grow m n = ((m.size : Int), ⟨m.size + n, m.max⟩)) := by
  constructor
  · intro hc
    simp only [memory_grow, h]
    rw [if_neg (Nat.not_le_of_lt hc)]
  · intro hc
    simp only [memory_grow, h]
    rw [if_pos hc]

/-- C7 witness: the spec's concrete scenario — growing a 1-page memory with
maximum 2 by 5 pages returns `-1` and changes nothing; growing a 0-page
memory with maximum 2 by 1 page returns previous size `0`. -/
theorem memory_grow_spec_w :
    memory_grow ⟨1, some 2⟩ 5 = (-1, ⟨1, some 2⟩) ∧
    memory_grow ⟨0, some 2⟩ 1 = ((0 : Int), ⟨0 + 1, some 2⟩) :=
  ⟨(memory_grow_spec ⟨1, some 2⟩ 5 2 rfl).1 (by decide),
   (memory_grow_spec ⟨0, some 2⟩ 1 2 rfl).2 (by decide)⟩

/-- C8: `top` raises `EmptyException` exactly when the stack is empty, and on
a stack whose most recent push was `e` it returns `e`.  In this embedding
`top` is a pure observer — it takes the stack and returns only the element,
so the stack contents and length are unchanged by construction. -/
theorem stack_top_spec {α : Type} (s : Stack α) :
    ((∃ m, s.top = Except.error (StackError.EmptyException m)) ↔
      s.is_empty = true) ∧
    ∀ e : α, (s.push e).top = Except.ok e := by
  constructor
  · by_cases h : s.is_empty = true
    · exact ⟨fun _ => h, fun _ => ⟨emptyMsg, s.top_empty h⟩⟩
    · refine ⟨?_, fun hc => absurd hc h⟩
      rintro ⟨m, hm⟩
      rw [s.top_nonempty h] at hm
      cases hm
  · intro e
    have hne : ¬ (s.push e).is_empty = true := by
      simp [Stack.push, Stack.is_empty]
    rw [Stack.top_nonempty _ hne]
    simp [Stack.push, List.getLast_append]

/-- C9: `push` is total (it returns a stack, never an error), increases the
length by exactly one, leaves the stack non-empty with the pushed element on
top, and `is_empty` holds exactly when the length is zero. -/
theorem stack_push_spec {α : Type} (s : Stack α) (e : α) :
    (s.push e).len = s.len + 1 ∧
    (s.push e).is_empty = false ∧
    (s.push e).top = Except.ok e ∧
    ∀ t : Stack α, t.is_empty = true ↔ t.len = 0 := by
  refine ⟨by simp [Stack.push, Stack.len], by simp [Stack.push, Stack.is_empty],
    ?_, fun t => ?_⟩
  · have hne : ¬ (s.push e).is_empty = true := by
      simp [Stack.push, Stack.is_empty]
    rw [Stack.top_nonempty _ hne]
    simp [Stack.push, List.getLast_append]
  · simp [Stack.is_empty, Stack.len]

/-- C10: the constructor yields an empty stack (length 0, `is_empty` true)
whatever value is passed for its `debug` parameter, and emits no log either
way, because it consults the class attribute `Stack.debug` (always `false`)
rather than its argument: `init` with `true` and with `false` are equal. -/
theorem stack_init_spec (α : Type) (dbg : Bool) :
    Stack.init α dbg = (⟨[]⟩, []) ∧
    Stack.init α dbg = Stack.init α false ∧
    (Stack.init α dbg).1.len = 0 ∧
    (Stack.init α dbg).1.is_empty = true := by
  refine ⟨?_, ?_, ?_, ?_⟩ <;>
    simp [Stack.init, Stack.debug, Stack.len, Stack.is_empty]
